import Mathlib

/-!
Shallow embedding of the analytics core of a personal-finance dashboard
(files analytics.py, finance_dashboard.py, goals.py of the repository),
with theorems checking the natural-language specification against it.

Modelling conventions:
* Money amounts are real numbers (the Python code uses floats; the spec
  describes exact decimal arithmetic, so the embedding uses exact reals).
* A pandas DataFrame of transactions is a list of `Transaction` records
  in row order.
* `datetime.now()` is passed explicitly as the as-of `Date` parameter,
  and `datetime.now().year` as an explicit current-year parameter.
* `self.read_transactions()` is modelled by passing the transaction list
  directly to each operation.
-/

namespace PF

/-- The `Type` column of a ledger row: `Income` or `Expense`. -/
inductive TType where
  | Income : TType
  | Expense : TType
deriving DecidableEq

/-- A calendar date (year, month, day), as parsed by `pd.to_datetime`. -/
structure Date where
  year : Int
  month : Int
  day : Int
deriving DecidableEq

/-- Day number of a civil date (days since 1970-01-01, the standard
days-from-civil algorithm); date subtraction in pandas
(`(datetime.now() - Date).dt.days`) is the difference of day numbers. -/
def Date.toDays (dt : Date) : Int :=
  let y : Int := if dt.month ≤ 2 then dt.year - 1 else dt.year
  let era : Int := (if 0 ≤ y then y else y - 399) / 400
  let yoe : Int := y - era * 400
  let mp : Int := if dt.month ≤ 2 then dt.month + 9 else dt.month - 3
  let doy : Int := (153 * mp + 2) / 5 + dt.day - 1
  let doe : Int := yoe * 365 + yoe / 4 - yoe / 100 + doy
  era * 146097 + doe - 719468

/-- The calendar month of a date as a single ordered key, mirroring
`df['Date'].dt.to_period('M')`: chronological order of periods is the
numeric order of `year * 12 + month`. -/
def monthKey (dt : Date) : Int :=
  dt.year * 12 + dt.month

/-- One ledger row: columns `Date`, `Category`, `Type`, `Amount`. -/
structure Transaction where
  date : Date
  category : String
  kind : TType
  amount : ℝ

/-- Case-sensitive substring test on character lists. -/
def containsChars (pat : List Char) : List Char → Bool
  | [] => pat.isEmpty
  | c :: t => pat.isPrefixOf (c :: t) || containsChars pat t

/-- Case-insensitive substring containment, mirroring
`Series.str.contains(pat, case=False)` for a literal pattern. -/
def containsCI (s pat : String) : Bool :=
  containsChars (pat.data.map Char.toLower) (s.data.map Char.toLower)

/-- Amount sum of the rows selected by a boolean row predicate, mirroring
`df[pred]['Amount'].sum()` (the sum of an empty selection is 0). -/
noncomputable def sumAmounts (df : List Transaction) (p : Transaction → Bool) : ℝ :=
  ((df.filter p).map Transaction.amount).sum

/-- Sorted insertion of a month key, keeping keys unique; folding it over
the rows reproduces the sorted unique month keys that both
`df.groupby('Month')` (with its default key sorting) and
`sorted(df['Month'].unique())` iterate over. -/
def insertMonth (m : Int) : List Int → List Int
  | [] => [m]
  | k :: t =>
    if m < k then m :: k :: t
    else if m = k then k :: t
    else k :: insertMonth m t

/-- The sorted list of distinct month keys occurring in the rows. -/
def sortedMonthKeys (df : List Transaction) : List Int :=
  df.foldr (fun t acc => insertMonth (monthKey t.date) acc) []

/-- Income sum of one month group, `x[x['Type'] == 'Income']['Amount'].sum()`
for the group `x` of rows whose month is `m`. -/
noncomputable def monthIncome (df : List Transaction) (m : Int) : ℝ :=
  sumAmounts df (fun t => decide (monthKey t.date = m) && decide (t.kind = TType.Income))

/-- Expense sum of one month group. -/
noncomputable def monthExpense (df : List Transaction) (m : Int) : ℝ :=
  sumAmounts df (fun t => decide (monthKey t.date = m) && decide (t.kind = TType.Expense))

/-- Net flow of one month group: the value the `groupby('Month').apply`
lambda of analytics.py computes for that group. -/
noncomputable def monthNet (df : List Transaction) (m : Int) : ℝ :=
  monthIncome df m - monthExpense df m

/-- Running cumulative sums with accumulator, mirroring `Series.cumsum()`. -/
noncomputable def cumsumFrom (acc : ℝ) : List ℝ → List ℝ
  | [] => []
  | x :: t => (acc + x) :: cumsumFrom (acc + x) t

/-- `Series.cumsum()`. -/
noncomputable def cumsum (l : List ℝ) : List ℝ :=
  cumsumFrom 0 l

/-- The `monthly_cash_balance` series of analytics.py:
`df.groupby('Month').apply(lambda x: income - expense).cumsum()` as an
ordered month-key/value association list (pandas groupby sorts the keys). -/
noncomputable def monthlyCashBalance (df : List Transaction) : List (Int × ℝ) :=
  let ms := sortedMonthKeys df
  ms.zip (cumsum (ms.map (monthNet df)))

/-- The dictionary returned by `calculate_net_worth` in analytics.py. -/
structure NetWorthData where
  starting_capital : ℝ
  current_cash : ℝ
  investment_value : ℝ
  current_net_worth : ℝ
  monthly_cash_balance : List (Int × ℝ)

/-- `calculate_net_worth(df, starting_capital, investment_value)` of
analytics.py. -/
noncomputable def calculate_net_worth (df : List Transaction)
    (starting_capital investment_value : ℝ) : NetWorthData :=
  if df.isEmpty then
    { starting_capital := starting_capital
      current_net_worth := starting_capital
      current_cash := starting_capital
      investment_value := 0
      monthly_cash_balance := [] }
  else
    let total_income := sumAmounts df (fun t => decide (t.kind = TType.Income))
    let total_expenses := sumAmounts df (fun t => decide (t.kind = TType.Expense))
    let current_cash := starting_capital + total_income - total_expenses
    let current_net_worth := current_cash + investment_value
    { starting_capital := starting_capital
      current_cash := current_cash
      investment_value := investment_value
      current_net_worth := current_net_worth
      monthly_cash_balance := monthlyCashBalance df }

/-- `annual_return_rate` of `get_investment_value`. -/
noncomputable def annual_return_rate : ℝ := 0.12

/-- `daily_return_rate = (1 + annual_return_rate)**(1/365) - 1`. -/
noncomputable def daily_return_rate : ℝ :=
  (1 + annual_return_rate) ^ ((1 : ℝ) / 365) - 1

/-- `days_held = (datetime.now() - row['Date']).dt.days`: since ledger dates
carry no time of day, the timedelta floor equals the difference of civil
day numbers, negative when the row's date lies after `now`. -/
def daysHeld (now : Date) (d : Date) : Int :=
  now.toDays - d.toDays

/-- Row predicate of the valuation filter:
`df['Category'].str.contains('Mutual Fund', case=False) & (df['Type'] == 'Expense')`. -/
def isMutualFundExpense (t : Transaction) : Bool :=
  containsCI t.category "Mutual Fund" && decide (t.kind = TType.Expense)

/-- Per-row `current_value = row['Amount'] * ((1 + daily_return_rate) ** row['days_held'])`
(an integer power, negative for future-dated rows). -/
noncomputable def currentValue (now : Date) (t : Transaction) : ℝ :=
  t.amount * (1 + daily_return_rate) ^ (daysHeld now t.date)

/-- `get_investment_value` of finance_dashboard.py, with `datetime.now()`
passed as `now` and the CSV contents as `df`. -/
noncomputable def get_investment_value (df : List Transaction) (now : Date) : ℝ :=
  let df_investments := df.filter isMutualFundExpense
  if df_investments.isEmpty then 0
  else ((df_investments.map (currentValue now)).sum)

/-- Row predicate of the portfolio filter:
`df['Category'].str.contains('Investment|Mutual Fund', case=False)` — the
regex alternation matches either token as a case-insensitive substring. -/
def matchesInvestment (c : String) : Bool :=
  containsCI c "Investment" || containsCI c "Mutual Fund"

/-- `groupby('Category')['Amount'].sum().to_dict()` over a row selection:
one key per distinct category, each mapped to the amount sum of its rows
(key order is immaterial to the resulting dictionary). -/
noncomputable def categoryBreakdown (rows : List Transaction) : List (String × ℝ) :=
  (rows.map Transaction.category).dedup.map
    (fun c => (c, sumAmounts rows (fun t => decide (t.category = c))))

/-- The dictionary returned by `track_investment_portfolio`. -/
structure PortfolioData where
  total_invested : ℝ
  current_value : ℝ
  returns : ℝ
  return_percentage : ℝ
  investment_breakdown : List (String × ℝ)

/-- `track_investment_portfolio` of finance_dashboard.py. -/
noncomputable def track_investment_portfolio (df : List Transaction) (now : Date) :
    PortfolioData :=
  let investment_categories := df.filter (fun t => matchesInvestment t.category)
  let total_invested :=
    sumAmounts investment_categories (fun t => decide (t.kind = TType.Expense))
  let current_value := get_investment_value df now
  let returns := current_value - total_invested
  let return_percentage := if 0 < total_invested then returns / total_invested * 100 else 0
  { total_invested := total_invested
    current_value := current_value
    returns := returns
    return_percentage := return_percentage
    investment_breakdown := categoryBreakdown investment_categories }

/-- One month's entry of the cashflow report. -/
structure CashflowEntry where
  income : ℝ
  expenses : ℝ
  net_flow : ℝ

/-- `calculate_monthly_cashflow` of finance_dashboard.py: month keys sorted
chronologically, each with income, expenses and net flow of its group. -/
noncomputable def calculate_monthly_cashflow (df : List Transaction) :
    List (Int × CashflowEntry) :=
  if df.isEmpty then []
  else
    (sortedMonthKeys df).map fun m =>
      (m, { income := monthIncome df m
            expenses := monthExpense df m
            net_flow := monthIncome df m - monthExpense df m })

/-- The `financial_goals` configuration dictionary. -/
structure FinancialGoals where
  target_portfolio_value : ℝ
  monthly_savings_goal : ℝ
  annual_income_goal : ℝ

/-- One goal's entry in the goal-progress dictionary. -/
structure GoalEntry where
  target : ℝ
  current : ℝ
  progress_percentage : ℝ

/-- The goal-progress dictionary of goals.py: exactly the three entries
`portfolio_goal`, `monthly_savings_goal`, `annual_income_goal`. -/
structure GoalProgressData where
  portfolio_goal : GoalEntry
  monthly_savings_goal : GoalEntry
  annual_income_goal : GoalEntry

/-- `track_financial_goals` of goals.py, with `datetime.now().year` passed
as `currentYear`. -/
noncomputable def track_financial_goals (portfolio : PortfolioData)
    (cashflow : List (Int × CashflowEntry)) (df : List Transaction)
    (goals : FinancialGoals) (currentYear : Int) : GoalProgressData :=
  let year_income :=
    sumAmounts df (fun t => decide (t.date.year = currentYear) && decide (t.kind = TType.Income))
  let avg_monthly_savings :=
    if cashflow.isEmpty then 0
    else (cashflow.map (fun p => p.2.net_flow)).sum / (cashflow.length : ℝ)
  { portfolio_goal :=
      { target := goals.target_portfolio_value
        current := portfolio.current_value
        progress_percentage :=
          if 0 < goals.target_portfolio_value then
            min 100 (portfolio.current_value / goals.target_portfolio_value * 100)
          else 0 }
    monthly_savings_goal :=
      { target := goals.monthly_savings_goal
        current := avg_monthly_savings
        progress_percentage :=
          if 0 < goals.monthly_savings_goal then
            min 100 (avg_monthly_savings / goals.monthly_savings_goal * 100)
          else 0 }
    annual_income_goal :=
      { target := goals.annual_income_goal
        current := year_income
        progress_percentage :=
          if 0 < goals.annual_income_goal then
            min 100 (year_income / goals.annual_income_goal * 100)
          else 0 } }

/-- A pandas DataFrame as passed to `calculate_net_worth`: the ledger rows
plus the derived `Month` column that the function adds in place
(`df['Month'] = df['Date'].dt.to_period('M')` mutates the caller's frame). -/
structure DataFrame where
  txns : List Transaction
  monthCol : Option (List Int)

/-- `calculate_net_worth` with the in-place column assignment made explicit:
returns the result together with the state of the caller's DataFrame after
the call (the `Month` column is only added on the non-empty path, which is
the only path that executes the assignment). -/
noncomputable def calculate_net_worth_frame (df : DataFrame)
    (starting_capital investment_value : ℝ) : NetWorthData × DataFrame :=
  if df.txns.isEmpty then
    (calculate_net_worth df.txns starting_capital investment_value, df)
  else
    (calculate_net_worth df.txns starting_capital investment_value,
     { df with monthCol := some (df.txns.map (fun t => monthKey t.date)) })

/-- Modelled from the spec (section 4.1 wording, for the refinement claim
C3): the Valuation Engine output as the spec words it — the sum, over
transactions whose category contains the investment-indicator pattern
case-insensitively and whose kind is Expense, of
amount × (1+d)^days_held with d = (1+0.12)^(1/365) − 1 and days_held the
whole number of days from the transaction date to the as-of date (a
natural number when the as-of date is not earlier). -/
noncomputable def specInvestmentValue (df : List Transaction) (asOf : Date) : ℝ :=
  ((df.filter isMutualFundExpense).map
    (fun t => t.amount * (1 + ((1 + 0.12) ^ ((1 : ℝ) / 365) - 1)) ^ (daysHeld asOf t.date).toNat)).sum

/-- A future-dated mutual-fund purchase: dated five days after `probeAsOf`. -/
def futureTx : Transaction :=
  { date := { year := 2024, month := 1, day := 10 }
    category := "Mutual Fund - Growth"
    kind := TType.Expense
    amount := 100 }

/-- The as-of date used for the future-dated probe. -/
def probeAsOf : Date := { year := 2024, month := 1, day := 5 }

/-- A past-dated mutual-fund purchase: dated ten days before `probeNow`. -/
def pastTx : Transaction :=
  { date := { year := 2024, month := 2, day := 1 }
    category := "Mutual Fund - Index"
    kind := TType.Expense
    amount := 20000 }

/-- An as-of date later than `pastTx`. -/
def probeNow : Date := { year := 2024, month := 2, day := 11 }

/-- A three-month ledger whose monthly net flows are 100, −30, 50. -/
def threeMonthLedger : List Transaction :=
  [ { date := { year := 2024, month := 1, day := 5 }
      category := "Salary", kind := TType.Income, amount := 100 },
    { date := { year := 2024, month := 2, day := 7 }
      category := "Groceries", kind := TType.Expense, amount := 30 },
    { date := { year := 2024, month := 3, day := 9 }
      category := "Salary", kind := TType.Income, amount := 50 } ]

/-- A mutual-fund purchase made on 2024-01-05. -/
def sameDayRow : Transaction :=
  { date := { year := 2024, month := 1, day := 5 }
    category := "Mutual Fund - Index"
    kind := TType.Expense
    amount := 100 }

/-- A ledger holding one mutual-fund purchase made on the probe date. -/
def sameDayLedger : List Transaction :=
  [sameDayRow]

/-- An Expense row in a matched category. -/
def mfExpenseRow : Transaction :=
  { date := { year := 2024, month := 1, day := 5 }
    category := "Mutual Fund A", kind := TType.Expense, amount := 100 }

/-- An Income row in the same matched category. -/
def mfIncomeRow : Transaction :=
  { date := { year := 2024, month := 1, day := 8 }
    category := "Mutual Fund A", kind := TType.Income, amount := 50 }

/-- A two-row ledger with an Expense and an Income row in one matched
category. -/
def mixedKindLedger : List Transaction :=
  [mfExpenseRow, mfIncomeRow]

/-- A purchase matching the Investment token but not the Mutual Fund token. -/
def invRow : Transaction :=
  { date := { year := 2024, month := 1, day := 5 }
    category := "Investment - Stocks", kind := TType.Expense, amount := 100 }

/-- A ledger whose only row matches the Investment token but not the
Mutual Fund token. -/
def investmentOnlyLedger : List Transaction :=
  [invRow]

/-- A concrete DataFrame for the purity probe. -/
def probeFrame : DataFrame :=
  { txns := sameDayLedger, monthCol := none }

/-- Membership in a sorted-unique insertion. -/
theorem mem_insertMonth {x m : Int} : ∀ {l : List Int},
    x ∈ insertMonth m l ↔ x = m ∨ x ∈ l := by
  intro l
  induction l with
  | nil => simp [insertMonth]
  | cons k t ih =>
    by_cases h1 : m < k
    · simp [insertMonth, h1]
    · by_cases h2 : m = k
      · subst h2
        simp only [insertMonth, h1, if_false, if_pos rfl]
        constructor
        · intro h; exact Or.inr h
        · rintro (h | h)
          · simp [h]
          · exact h
      · simp only [insertMonth, h1, h2, if_false, List.mem_cons, ih]
        tauto

/-- Sorted-unique insertion preserves strict sortedness. -/
theorem pairwise_insertMonth {m : Int} : ∀ {l : List Int},
    l.Pairwise (· < ·) → (insertMonth m l).Pairwise (· < ·) := by
  intro l
  induction l with
  | nil => intro _; simp [insertMonth]
  | cons k t ih =>
    intro h
    rcases List.pairwise_cons.1 h with ⟨hk, ht⟩
    by_cases h1 : m < k
    · simp only [insertMonth, if_pos h1]
      refine List.pairwise_cons.2 ⟨?_, h⟩
      intro b hb
      rcases List.mem_cons.1 hb with rfl | hb'
      · exact h1
      · exact lt_trans h1 (hk b hb')
    · by_cases h2 : m = k
      · simpa [insertMonth, h1, h2] using h
      · have hkm : k < m := by omega
        simp only [insertMonth, h1, h2, if_false]
        refine List.pairwise_cons.2 ⟨?_, ih ht⟩
        intro b hb
        rcases mem_insertMonth.1 hb with rfl | hb'
        · exact hkm
        · exact hk b hb'

/-- The month-key list extracted from the rows is strictly sorted. -/
theorem pairwise_sortedMonthKeys (df : List Transaction) :
    (sortedMonthKeys df).Pairwise (· < ·) := by
  induction df with
  | nil => simp [sortedMonthKeys]
  | cons t rest ih => exact pairwise_insertMonth ih

/-- The month-key list contains exactly the months present in the rows. -/
theorem mem_sortedMonthKeys {df : List Transaction} {m : Int} :
    m ∈ sortedMonthKeys df ↔ ∃ t ∈ df, monthKey t.date = m := by
  induction df with
  | nil => simp [sortedMonthKeys]
  | cons t rest ih =>
    simp only [sortedMonthKeys, List.foldr_cons] at *
    rw [mem_insertMonth]
    simp only [List.mem_cons, ih]
    constructor
    · rintro (rfl | ⟨u, hu, rfl⟩)
      · exact ⟨t, Or.inl rfl, rfl⟩
      · exact ⟨u, Or.inr hu, rfl⟩
    · rintro ⟨u, rfl | hu, rfl⟩
      · exact Or.inl rfl
      · exact Or.inr ⟨u, hu, rfl⟩

/-- Cumulative sums preserve length. -/
theorem length_cumsumFrom (a : ℝ) : ∀ (l : List ℝ),
    (cumsumFrom a l).length = l.length := by
  intro l
  induction l generalizing a with
  | nil => simp [cumsumFrom]
  | cons x t ih => simp [cumsumFrom, ih]

/-- Each cumulative-sum entry is the accumulator plus the prefix sum. -/
theorem get_cumsumFrom : ∀ (l : List ℝ) (a : ℝ) (i : Nat)
    (h : i < (cumsumFrom a l).length),
    (cumsumFrom a l).get ⟨i, h⟩ = a + ((l.take (i + 1)).sum) := by
  intro l
  induction l with
  | nil => intro a i h; simp [cumsumFrom] at h
  | cons x t ih =>
    intro a i h
    cases i with
    | zero => simp [cumsumFrom]
    | succ j =>
      have hj : j < (cumsumFrom (a + x) t).length := by
        simpa [cumsumFrom] using h
      have := ih (a + x) j hj
      simp only [cumsumFrom, List.get_cons_succ]
      rw [this]
      simp [List.take_cons, add_assoc]

/-- Looking up a present key in a keyed map of a key list yields its value. -/
theorem lookup_map_keys (f : String → ℝ) : ∀ (keys : List String) (c : String),
    c ∈ keys → List.lookup c (keys.map fun k => (k, f k)) = some (f c) := by
  intro keys
  induction keys with
  | nil => intro c hc; simp at hc
  | cons k t ih =>
    intro c hc
    by_cases h : c = k
    · subst h
      simp [List.lookup]
    · have hct : c ∈ t := by
        rcases List.mem_cons.1 hc with h' | h'
        · exact absurd h' h
        · exact h'
      have hbeq : (c == k) = false := beq_eq_false_iff_ne.2 h
      simp [List.lookup, hbeq, ih c hct]

/-- The daily growth factor of the valuation engine exceeds 1. -/
theorem one_lt_growthFactor : 1 < 1 + daily_return_rate := by
  have h112 : (0 : ℝ) < 1 + annual_return_rate := by
    unfold annual_return_rate; norm_num
  have : 1 < (1 + annual_return_rate) ^ ((1 : ℝ) / 365) := by
    rw [Real.one_lt_rpow_iff_of_pos h112]
    left
    constructor
    · unfold annual_return_rate; norm_num
    · norm_num
  unfold daily_return_rate
  linarith

/-- A negative integer power of a factor above 1 lies strictly below 1. -/
theorem zpow_neg_lt_one {q : ℝ} (hq : 1 < q) {n : Int} (hn : n < 0) :
    q ^ n < 1 := by
  have hq0 : 0 < q := lt_trans one_pos hq
  have hk : 0 < -n := by omega
  have h1 : 1 < q ^ (-n) := one_lt_zpow₀ hq hk
  have h2 : q ^ n = (q ^ (-n))⁻¹ := by
    rw [← zpow_neg, neg_neg]
  rw [h2]
  exact inv_lt_one_of_one_lt₀ h1

/-- On a non-empty ledger the snapshot's monthly series is the grouped
cumulative series. -/
theorem monthly_cash_balance_of_ne_nil {df : List Transaction} (h : df ≠ [])
    (sc iv : ℝ) :
    (calculate_net_worth df sc iv).monthly_cash_balance = monthlyCashBalance df := by
  have hE : df.isEmpty = false := by
    cases df with
    | nil => exact absurd rfl h
    | cons a l => rfl
  simp [calculate_net_worth, hE]

/-- The cumulative series pairs one value with each sorted month key. -/
theorem map_fst_monthlyCashBalance (df : List Transaction) :
    (monthlyCashBalance df).map Prod.fst = sortedMonthKeys df := by
  apply List.map_fst_zip
  simp [cumsum, length_cumsumFrom]

/-- Each entry of the cumulative series is the prefix sum of the monthly
net flows up to and including its month. -/
theorem get_monthlyCashBalance (df : List Transaction) (i : Nat)
    (hi : i < (monthlyCashBalance df).length) :
    ((monthlyCashBalance df).get ⟨i, hi⟩).2
      = (((sortedMonthKeys df).take (i + 1)).map (monthNet df)).sum := by
  have hz := @List.get_zip Int ℝ (sortedMonthKeys df)
    (cumsum ((sortedMonthKeys df).map (monthNet df))) ⟨i, hi⟩
  have hcs : (cumsum ((sortedMonthKeys df).map (monthNet df))).get
      ⟨i, List.lt_length_right_of_zip hi⟩
      = 0 + ((((sortedMonthKeys df).map (monthNet df)).take (i + 1)).sum) :=
    get_cumsumFrom _ 0 i _
  show ((monthlyCashBalance df).get ⟨i, hi⟩).2 = _
  calc ((monthlyCashBalance df).get ⟨i, hi⟩).2
      = (cumsum ((sortedMonthKeys df).map (monthNet df))).get
          ⟨i, List.lt_length_right_of_zip hi⟩ := by
        rw [show (monthlyCashBalance df).get ⟨i, hi⟩
          = ((sortedMonthKeys df).get ⟨i, List.lt_length_left_of_zip hi⟩,
             (cumsum ((sortedMonthKeys df).map (monthNet df))).get
               ⟨i, List.lt_length_right_of_zip hi⟩) from hz]
    _ = 0 + ((((sortedMonthKeys df).map (monthNet df)).take (i + 1)).sum) := hcs
    _ = (((sortedMonthKeys df).take (i + 1)).map (monthNet df)).sum := by
        rw [zero_add, ← List.map_take]

/-- C4: on every non-empty TransactionSet the monthly_cash_balance series
has one key per calendar month present, in chronological order regardless
of row order, and its value at each position is the cumulative sum of the
per-month net flows up to and including that month. -/
theorem C4_monthly_cash_balance (df : List Transaction) (sc iv : ℝ)
    (h : df ≠ []) :
    ((calculate_net_worth df sc iv).monthly_cash_balance.map Prod.fst
        = sortedMonthKeys df)
    ∧ (sortedMonthKeys df).Pairwise (· < ·)
    ∧ (∀ m : Int, m ∈ sortedMonthKeys df ↔ ∃ t ∈ df, monthKey t.date = m)
    ∧ ∀ (i : Nat) (hi : i < (calculate_net_worth df sc iv).monthly_cash_balance.length),
        ((calculate_net_worth df sc iv).monthly_cash_balance.get ⟨i, hi⟩).2
          = (((sortedMonthKeys df).take (i + 1)).map (monthNet df)).sum := by
  rw [monthly_cash_balance_of_ne_nil h]
  refine ⟨map_fst_monthlyCashBalance df, pairwise_sortedMonthKeys df,
    fun m => mem_sortedMonthKeys, ?_⟩
  intro i hi
  exact get_monthlyCashBalance df i hi

/-- Witness for C4 at the three-month ledger. -/
theorem C4_monthly_cash_balance_witness :
    threeMonthLedger ≠ [] ∧
    (calculate_net_worth threeMonthLedger 2000000 0).monthly_cash_balance.map Prod.fst
      = sortedMonthKeys threeMonthLedger :=
  ⟨List.cons_ne_nil _ _,
   (C4_monthly_cash_balance threeMonthLedger 2000000 0 (List.cons_ne_nil _ _)).1⟩

/-- C1: for every TransactionSet, starting capital and investment value, the
snapshot returned by the net-worth computation satisfies
current_net_worth = current_cash + investment_value exactly, with
current_cash = starting_capital + (sum of Income amounts) − (sum of Expense
amounts) over the full set, both equalities over the returned fields. -/
theorem C1_net_worth_invariant (df : List Transaction) (sc iv : ℝ) :
    (calculate_net_worth df sc iv).current_net_worth
      = (calculate_net_worth df sc iv).current_cash
        + (calculate_net_worth df sc iv).investment_value
    ∧ (calculate_net_worth df sc iv).current_cash
      = sc + sumAmounts df (fun t => decide (t.kind = TType.Income))
           - sumAmounts df (fun t => decide (t.kind = TType.Expense)) := by
  by_cases h : df.isEmpty
  · have hdf : df = [] := List.isEmpty_iff.1 h
    subst hdf
    simp [calculate_net_worth, sumAmounts]
  · simp [calculate_net_worth, h]

/-- C7: for the empty TransactionSet every core operation returns its
baseline: net worth returns starting_capital as both current_cash and
current_net_worth, investment value 0 and an empty monthly mapping, the
monthly cashflow is the empty mapping, and the valuation engine returns 0. -/
theorem C7_empty_baselines (sc iv : ℝ) (asOf : Date) :
    (calculate_net_worth [] sc iv).current_cash = sc
    ∧ (calculate_net_worth [] sc iv).current_net_worth = sc
    ∧ (calculate_net_worth [] sc iv).investment_value = 0
    ∧ (calculate_net_worth [] sc iv).monthly_cash_balance = []
    ∧ calculate_monthly_cashflow [] = []
    ∧ get_investment_value [] asOf = 0 := by
  refine ⟨rfl, rfl, rfl, rfl, rfl, ?_⟩
  simp [get_investment_value]

/-- C9: the aggregation is pure: the transaction rows of the caller's frame
are unchanged by the call (only a derived Month column is attached), and
identical inputs give identical outputs. -/
theorem C9_purity (dfa dfb : DataFrame) (sca scb iva ivb : ℝ)
    (h1 : dfa = dfb) (h2 : sca = scb) (h3 : iva = ivb) :
    (calculate_net_worth_frame dfa sca iva).2.txns = dfa.txns
    ∧ calculate_net_worth_frame dfa sca iva = calculate_net_worth_frame dfb scb ivb := by
  subst h1; subst h2; subst h3
  refine ⟨?_, rfl⟩
  by_cases h : dfa.txns.isEmpty
  · simp [calculate_net_worth_frame, h]
  · simp [calculate_net_worth_frame, h]

/-- Witness for C9 at a concrete frame. -/
theorem C9_purity_witness :
    (calculate_net_worth_frame probeFrame 2000000 0).2.txns = probeFrame.txns ∧
    calculate_net_worth_frame probeFrame 2000000 0
      = calculate_net_worth_frame probeFrame 2000000 0 :=
  C9_purity probeFrame probeFrame 2000000 2000000 0 0 rfl rfl rfl

/-- C5: the goal tracker returns the three configured goals, each with
progress_percentage = min 100 (current / target × 100) when its target is
positive and 0 otherwise, so progress never exceeds 100. -/
theorem C5_goal_progress (p : PortfolioData) (cf : List (Int × CashflowEntry))
    (df : List Transaction) (g : FinancialGoals) (cy : Int) :
    ((track_financial_goals p cf df g cy).portfolio_goal.progress_percentage
      = if 0 < (track_financial_goals p cf df g cy).portfolio_goal.target then
          min 100 ((track_financial_goals p cf df g cy).portfolio_goal.current
            / (track_financial_goals p cf df g cy).portfolio_goal.target * 100)
        else 0)
    ∧ ((track_financial_goals p cf df g cy).monthly_savings_goal.progress_percentage
      = if 0 < (track_financial_goals p cf df g cy).monthly_savings_goal.target then
          min 100 ((track_financial_goals p cf df g cy).monthly_savings_goal.current
            / (track_financial_goals p cf df g cy).monthly_savings_goal.target * 100)
        else 0)
    ∧ ((track_financial_goals p cf df g cy).annual_income_goal.progress_percentage
      = if 0 < (track_financial_goals p cf df g cy).annual_income_goal.target then
          min 100 ((track_financial_goals p cf df g cy).annual_income_goal.current
            / (track_financial_goals p cf df g cy).annual_income_goal.target * 100)
        else 0)
    ∧ (track_financial_goals p cf df g cy).portfolio_goal.progress_percentage ≤ 100
    ∧ (track_financial_goals p cf df g cy).monthly_savings_goal.progress_percentage ≤ 100
    ∧ (track_financial_goals p cf df g cy).annual_income_goal.progress_percentage ≤ 100 := by
  refine ⟨rfl, rfl, rfl, ?_, ?_, ?_⟩ <;>
  · show (if _ then _ else _) ≤ (100 : ℝ)
    split
    · exact min_le_left _ _
    · norm_num

/-- C6: return_percentage equals (current_value − total_invested) /
total_invested × 100 when total_invested is positive, and 0 when
total_invested is 0, a defined result rather than a failure. -/
theorem C6_return_percentage (df : List Transaction) (now : Date) :
    (0 < (track_investment_portfolio df now).total_invested →
      (track_investment_portfolio df now).return_percentage
        = ((track_investment_portfolio df now).current_value
            - (track_investment_portfolio df now).total_invested)
          / (track_investment_portfolio df now).total_invested * 100)
    ∧ ((track_investment_portfolio df now).total_invested = 0 →
      (track_investment_portfolio df now).return_percentage = 0) := by
  have hrp : (track_investment_portfolio df now).return_percentage
      = if 0 < (track_investment_portfolio df now).total_invested then
          ((track_investment_portfolio df now).current_value
            - (track_investment_portfolio df now).total_invested)
          / (track_investment_portfolio df now).total_invested * 100
        else 0 := rfl
  constructor
  · intro h
    rw [hrp, if_pos h]
  · intro h
    rw [hrp, if_neg]
    rw [h]
    exact lt_irrefl 0

/-- Witness for C6: a concrete ledger with positive total_invested. -/
theorem C6_return_percentage_witness :
    0 < (track_investment_portfolio sameDayLedger probeNow).total_invested ∧
    (track_investment_portfolio sameDayLedger probeNow).return_percentage
      = ((track_investment_portfolio sameDayLedger probeNow).current_value
          - (track_investment_portfolio sameDayLedger probeNow).total_invested)
        / (track_investment_portfolio sameDayLedger probeNow).total_invested * 100 := by
  have hm : matchesInvestment "Mutual Fund - Index" = true := by decide
  have hti : (track_investment_portfolio sameDayLedger probeNow).total_invested = 100 := by
    show sumAmounts (sameDayLedger.filter fun t => matchesInvestment t.category)
      (fun t => decide (t.kind = TType.Expense)) = 100
    simp [sameDayLedger, sameDayRow, sumAmounts, List.filter_cons, hm]
  have hpos : 0 < (track_investment_portfolio sameDayLedger probeNow).total_invested := by
    rw [hti]; norm_num
  exact ⟨hpos, (C6_return_percentage sameDayLedger probeNow).1 hpos⟩

/-- C3: when the as-of date is no earlier than any transaction date, the
valuation engine returns exactly the spec's sum — over transactions whose
category contains the investment-indicator pattern case-insensitively and
whose kind is Expense — of amount × (1+d)^days_held with
d = (1+0.12)^(1/365) − 1 and days_held the whole number of days from the
transaction date to the as-of date; and it returns 0 whenever no
transaction qualifies, including on the empty TransactionSet. -/
theorem C3_valuation_formula (df : List Transaction) (asOf : Date)
    (h : ∀ t ∈ df, t.date.toDays ≤ asOf.toDays) :
    get_investment_value df asOf = specInvestmentValue df asOf
    ∧ (df.filter isMutualFundExpense = [] → get_investment_value df asOf = 0) := by
  constructor
  · by_cases hE : df.filter isMutualFundExpense = []
    · simp [get_investment_value, specInvestmentValue, hE]
    · have hne : (df.filter isMutualFundExpense).isEmpty = false := by
        cases hF : df.filter isMutualFundExpense with
        | nil => exact absurd hF hE
        | cons a l => rfl
      simp only [get_investment_value, hne, Bool.false_eq_true, if_false]
      unfold specInvestmentValue
      congr 1
      apply List.map_congr_left
      intro t ht
      have hdf : t ∈ df := (List.mem_filter.1 ht).1
      have hd0 : 0 ≤ daysHeld asOf t.date := by
        have := h t hdf
        unfold daysHeld
        omega
      unfold currentValue
      congr 1
      calc (1 + daily_return_rate) ^ (daysHeld asOf t.date)
          = (1 + daily_return_rate) ^ (((daysHeld asOf t.date).toNat : Int)) := by
            rw [Int.toNat_of_nonneg hd0]
        _ = (1 + daily_return_rate) ^ ((daysHeld asOf t.date).toNat) :=
            zpow_natCast _ _
        _ = (1 + ((1 + 0.12) ^ ((1 : ℝ) / 365) - 1)) ^ ((daysHeld asOf t.date).toNat) :=
            rfl
  · intro hE
    simp [get_investment_value, hE]

/-- Witness for C3 at a ledger whose one purchase precedes the as-of date. -/
theorem C3_valuation_formula_witness :
    (∀ t ∈ [pastTx], t.date.toDays ≤ probeNow.toDays) ∧
    get_investment_value [pastTx] probeNow = specInvestmentValue [pastTx] probeNow :=
  ⟨by decide, (C3_valuation_formula [pastTx] probeNow (by decide)).1⟩

/-- C2 counterexample: a mutual-fund Expense dated five days after the
as-of date does not contribute exactly its amount — days_held is not
clamped to zero but kept at −5. -/
theorem C2_counterexample :
    get_investment_value [futureTx] probeAsOf ≠ futureTx.amount
    ∧ daysHeld probeAsOf futureTx.date = -5 := by
  have hm : isMutualFundExpense futureTx = true := by decide
  have hfilter : [futureTx].filter isMutualFundExpense = [futureTx] := by
    simp [List.filter, hm]
  have hdays : daysHeld probeAsOf futureTx.date = -5 := by decide
  have hval : get_investment_value [futureTx] probeAsOf
      = futureTx.amount * (1 + daily_return_rate) ^ (-5 : Int) := by
    simp [get_investment_value, hfilter, currentValue, hdays]
  have hlt : (1 + daily_return_rate) ^ (-5 : Int) < 1 :=
    zpow_neg_lt_one one_lt_growthFactor (by norm_num)
  refine ⟨?_, hdays⟩
  rw [hval]
  have hamt : futureTx.amount = 100 := rfl
  rw [hamt]
  intro hcontra
  linarith

/-- C2 (amended): a qualifying transaction dated strictly after the as-of
date is valued with the negative signed day difference as days_held — it
contributes amount × (1+d)^days_held with days_held < 0, strictly below its
amount when the amount is positive — and the computation is total. -/
theorem C2_future_dated_growth (t : Transaction) (asOf : Date)
    (hm : isMutualFundExpense t = true)
    (hd : asOf.toDays < t.date.toDays) :
    get_investment_value [t] asOf
      = t.amount * (1 + daily_return_rate) ^ (daysHeld asOf t.date)
    ∧ daysHeld asOf t.date < 0
    ∧ (0 < t.amount → get_investment_value [t] asOf < t.amount) := by
  have hfilter : [t].filter isMutualFundExpense = [t] := by
    simp [List.filter, hm]
  have hdneg : daysHeld asOf t.date < 0 := by
    unfold daysHeld
    omega
  have hval : get_investment_value [t] asOf
      = t.amount * (1 + daily_return_rate) ^ (daysHeld asOf t.date) := by
    simp [get_investment_value, hfilter, currentValue]
  refine ⟨hval, hdneg, ?_⟩
  intro hamt
  rw [hval]
  have hlt : (1 + daily_return_rate) ^ (daysHeld asOf t.date) < 1 :=
    zpow_neg_lt_one one_lt_growthFactor hdneg
  calc t.amount * (1 + daily_return_rate) ^ (daysHeld asOf t.date)
      < t.amount * 1 := mul_lt_mul_of_pos_left hlt hamt
    _ = t.amount := mul_one _

/-- Witness for C2 (amended) at the future-dated probe. -/
theorem C2_future_dated_growth_witness :
    isMutualFundExpense futureTx = true
    ∧ probeAsOf.toDays < futureTx.date.toDays
    ∧ daysHeld probeAsOf futureTx.date < 0 :=
  ⟨by decide, by decide,
   (C2_future_dated_growth futureTx probeAsOf (by decide) (by decide)).2.1⟩

/-- C8: the portfolio breakdown maps every matched category present in the
ledger to the amount sum of ALL its rows regardless of kind, while
total_invested sums only the Expense rows among the matched transactions. -/
theorem C8_breakdown_mixes_kinds (df : List Transaction) (now : Date) :
    (∀ c : String, matchesInvestment c = true → (∃ t ∈ df, t.category = c) →
      List.lookup c (track_investment_portfolio df now).investment_breakdown
        = some (sumAmounts df (fun t => decide (t.category = c))))
    ∧ (track_investment_portfolio df now).total_invested
      = sumAmounts df
          (fun t => matchesInvestment t.category && decide (t.kind = TType.Expense)) := by
  constructor
  · rintro c hc ⟨t0, ht0, hcat⟩
    have hbd : (track_investment_portfolio df now).investment_breakdown
        = categoryBreakdown (df.filter fun t => matchesInvestment t.category) := rfl
    rw [hbd]
    unfold categoryBreakdown
    have hmem : c ∈ ((df.filter fun t => matchesInvestment t.category).map
        Transaction.category).dedup := by
      rw [List.mem_dedup, List.mem_map]
      refine ⟨t0, ?_, hcat⟩
      rw [List.mem_filter]
      exact ⟨ht0, by rw [hcat]; exact hc⟩
    rw [lookup_map_keys _ _ c hmem]
    congr 1
    unfold sumAmounts
    rw [List.filter_filter]
    refine congrArg (fun l2 => (List.map Transaction.amount l2).sum) (List.filter_congr ?_)
    intro x hx
    by_cases hxc : x.category = c
    · have hx1 : decide (x.category = c) = true := decide_eq_true hxc
      have hx2 : matchesInvestment x.category = true := by rw [hxc]; exact hc
      rw [hx1, hx2]
      rfl
    · have hx1 : decide (x.category = c) = false := decide_eq_false hxc
      rw [hx1]
      simp
  · have hti : (track_investment_portfolio df now).total_invested
        = sumAmounts (df.filter fun t => matchesInvestment t.category)
            (fun t => decide (t.kind = TType.Expense)) := rfl
    rw [hti]
    unfold sumAmounts
    rw [List.filter_filter]
    refine congrArg (fun l2 => (List.map Transaction.amount l2).sum) (List.filter_congr ?_)
    intro x hx
    exact Bool.and_comm _ _

/-- Witness for C8 at a ledger holding an Income and an Expense row of one
matched category. -/
theorem C8_breakdown_mixes_kinds_witness :
    matchesInvestment "Mutual Fund A" = true
    ∧ (∃ t ∈ mixedKindLedger, t.category = "Mutual Fund A")
    ∧ List.lookup "Mutual Fund A"
        (track_investment_portfolio mixedKindLedger probeNow).investment_breakdown
      = some (sumAmounts mixedKindLedger
          (fun t => decide (t.category = "Mutual Fund A"))) := by
  have hm : matchesInvestment "Mutual Fund A" = true := by decide
  have hex : ∃ t ∈ mixedKindLedger, t.category = "Mutual Fund A" :=
    ⟨mfExpenseRow, List.mem_cons_self _ _, rfl⟩
  exact ⟨hm, hex,
    (C8_breakdown_mixes_kinds mixedKindLedger probeNow).1 "Mutual Fund A" hm hex⟩

/-- C10: when some Expense row matches the Investment token but no row
matches the Mutual Fund token, total_invested is the sum of those Expense
amounts while the valuation engine values the portfolio at 0, so returns
equals minus total_invested. -/
theorem C10_investment_without_mutual_fund (df : List Transaction) (now : Date)
    (h1 : ∀ t ∈ df, containsCI t.category "Mutual Fund" = false)
    (h2 : ∃ t ∈ df, t.kind = TType.Expense ∧ containsCI t.category "Investment" = true) :
    (track_investment_portfolio df now).current_value = 0
    ∧ (track_investment_portfolio df now).total_invested
      = sumAmounts df
          (fun t => containsCI t.category "Investment" && decide (t.kind = TType.Expense))
    ∧ (track_investment_portfolio df now).returns
      = -(track_investment_portfolio df now).total_invested := by
  have hcv : (track_investment_portfolio df now).current_value
      = get_investment_value df now := rfl
  have hgz : get_investment_value df now = 0 := by
    have hf : df.filter isMutualFundExpense = [] := by
      rw [List.filter_eq_nil_iff]
      intro t ht hp
      unfold isMutualFundExpense at hp
      rw [h1 t ht] at hp
      simp at hp
    simp [get_investment_value, hf]
  have hti : (track_investment_portfolio df now).total_invested
      = sumAmounts df
          (fun t => containsCI t.category "Investment" && decide (t.kind = TType.Expense)) := by
    have hti0 : (track_investment_portfolio df now).total_invested
        = sumAmounts (df.filter fun t => matchesInvestment t.category)
            (fun t => decide (t.kind = TType.Expense)) := rfl
    rw [hti0]
    unfold sumAmounts
    rw [List.filter_filter]
    refine congrArg (fun l2 => (List.map Transaction.amount l2).sum) (List.filter_congr ?_)
    intro x hx
    unfold matchesInvestment
    rw [h1 x hx]
    cases containsCI x.category "Investment" <;>
      cases hd : decide (x.kind = TType.Expense) <;> simp
  refine ⟨by rw [hcv, hgz], hti, ?_⟩
  have hr : (track_investment_portfolio df now).returns
      = (track_investment_portfolio df now).current_value
        - (track_investment_portfolio df now).total_invested := rfl
  rw [hr, hcv, hgz, zero_sub]

/-- Witness for C10 at a ledger with one Investment-only Expense row. -/
theorem C10_investment_without_mutual_fund_witness :
    (∀ t ∈ investmentOnlyLedger, containsCI t.category "Mutual Fund" = false)
    ∧ (∃ t ∈ investmentOnlyLedger,
        t.kind = TType.Expense ∧ containsCI t.category "Investment" = true)
    ∧ (track_investment_portfolio investmentOnlyLedger probeNow).current_value = 0 := by
  have ha : ∀ t ∈ investmentOnlyLedger, containsCI t.category "Mutual Fund" = false := by
    decide
  have hb : ∃ t ∈ investmentOnlyLedger,
      t.kind = TType.Expense ∧ containsCI t.category "Investment" = true :=
    ⟨invRow, List.mem_cons_self _ _, rfl, by decide⟩
  exact ⟨ha, hb,
    (C10_investment_without_mutual_fund investmentOnlyLedger probeNow ha hb).1⟩


/-- Sanity: the civil day-number function agrees with the calendar on the
epoch, day differences within a month, and February of leap and common
years. -/
theorem toDays_sanity :
    Date.toDays { year := 1970, month := 1, day := 1 } = 0
    ∧ Date.toDays { year := 2024, month := 1, day := 10 }
        - Date.toDays { year := 2024, month := 1, day := 5 } = 5
    ∧ Date.toDays { year := 2024, month := 3, day := 1 }
        - Date.toDays { year := 2024, month := 2, day := 1 } = 29
    ∧ Date.toDays { year := 2023, month := 3, day := 1 }
        - Date.toDays { year := 2023, month := 2, day := 1 } = 28
    ∧ Date.toDays { year := 2000, month := 1, day := 1 } = 10957 := by
  refine ⟨by decide, by decide, by decide, by decide, by decide⟩

/-- Sanity: the case-insensitive substring test behaves as the pandas
pattern match does on representative categories. -/
theorem containsCI_sanity :
    containsCI "Mutual Fund - Index" "Mutual Fund" = true
    ∧ containsCI "mutual FUND x" "Mutual Fund" = true
    ∧ containsCI "Groceries" "Mutual Fund" = false := by
  refine ⟨by decide, by decide, by decide⟩

/-- Sanity (spec section 8 test): monthly net flows 100, −30, 50 yield the
cumulative series 100, 70, 120. -/
theorem cumsum_sanity : cumsum [100, -30, 50] = [100, 70, 120] := by
  norm_num [cumsum, cumsumFrom]

/-- Sanity (spec section 8 test): the three-month ledger with monthly net
flows 100, −30, 50 produces the cumulative month series
(2024-01, 100), (2024-02, 70), (2024-03, 120). -/
theorem threeMonth_series_sanity :
    monthlyCashBalance threeMonthLedger
      = [(24289, 100), (24290, 70), (24291, 120)] := by
  have hk : sortedMonthKeys threeMonthLedger = [24289, 24290, 24291] := by decide
  have h1 : monthNet threeMonthLedger 24289 = 100 := by
    norm_num [monthNet, monthIncome, monthExpense, sumAmounts, threeMonthLedger,
      monthKey, List.filter,
      (by decide : decide (TType.Income = TType.Expense) = false),
      (by decide : decide (TType.Expense = TType.Income) = false)]
  have h2 : monthNet threeMonthLedger 24290 = -30 := by
    norm_num [monthNet, monthIncome, monthExpense, sumAmounts, threeMonthLedger,
      monthKey, List.filter,
      (by decide : decide (TType.Income = TType.Expense) = false),
      (by decide : decide (TType.Expense = TType.Income) = false)]
  have h3 : monthNet threeMonthLedger 24291 = 50 := by
    norm_num [monthNet, monthIncome, monthExpense, sumAmounts, threeMonthLedger,
      monthKey, List.filter,
      (by decide : decide (TType.Income = TType.Expense) = false),
      (by decide : decide (TType.Expense = TType.Income) = false)]
  rw [monthlyCashBalance, hk]
  norm_num [h1, h2, h3, cumsum, cumsumFrom, List.zip]

/-- Sanity (spec section 8 test): a purchase held zero days is valued at
exactly its amount. -/
theorem valuation_zero_days_sanity :
    get_investment_value sameDayLedger { year := 2024, month := 1, day := 5 }
      = 100 := by
  have hm : isMutualFundExpense sameDayRow = true := by decide
  have hd : daysHeld { year := 2024, month := 1, day := 5 } sameDayRow.date = 0 := by
    decide
  have hamt : sameDayRow.amount = 100 := rfl
  have hfilter : sameDayLedger.filter isMutualFundExpense = [sameDayRow] := by
    simp [sameDayLedger, List.filter, hm]
  simp [get_investment_value, hfilter, currentValue, hd, hamt]

end PF
